import Mathlib

/-!
Verification of the Nano Deb Installer security-scan pipeline and privileged
operation orchestration, as a shallow embedding of the Python sources
(`nano_installer/security.py`, `nano_installer/utils.py`,
`nano_installer/wizards.py`, `nano_installer/settings.py`) in Lean 4.

Strings are modelled as Lean `String`; Python substring membership
(`pat in s`), `str.startswith`, `str.lower`, and `str.splitlines` are
re-implemented over `List Char` so that every definition is executable and
kernel-reducible.
-/

/-- A single-quote character (U+0027), used to build the finding messages of
`scan_offline` exactly as the Python f-strings do. -/
def sglq : String := "\x27"

/-- Boolean list "is a prefix of" test (model of Python `str.startswith`). -/
def isPrefixCh : List Char → List Char → Bool
  | [], _ => true
  | _ :: _, [] => false
  | p :: ps, c :: cs => (p == c) && isPrefixCh ps cs

/-- Boolean substring test over char lists (model of Python `pat in s`). -/
def containsSubCh (pat : List Char) : List Char → Bool
  | [] => isPrefixCh pat []
  | c :: cs => isPrefixCh pat (c :: cs) || containsSubCh pat cs

/-- Substring test on strings (model of Python `pat in s`). -/
def containsSubstr (pat s : String) : Bool := containsSubCh pat.data s.data

/-- String startswith test (model of Python `s.startswith(pat)`). -/
def strStartsWith (pat s : String) : Bool := isPrefixCh pat.data s.data

theorem isPrefixCh_refl : ∀ l : List Char, isPrefixCh l l = true
  | [] => rfl
  | c :: cs => by simp [isPrefixCh, isPrefixCh_refl cs]

theorem isPrefixCh_append (p l b : List Char) (h : isPrefixCh p l = true) :
    isPrefixCh p (l ++ b) = true := by
  induction p generalizing l with
  | nil => rfl
  | cons x xs ih =>
    cases l with
    | nil => simp [isPrefixCh] at h
    | cons c cs =>
      simp only [isPrefixCh, Bool.and_eq_true] at h
      simp [isPrefixCh, h.1, ih cs h.2]

theorem containsSubCh_append_right (pat a b : List Char)
    (h : containsSubCh pat b = true) : containsSubCh pat (a ++ b) = true := by
  induction a with
  | nil => simpa using h
  | cons c cs ih => simp [containsSubCh, ih]

theorem containsSubCh_append_left (pat a b : List Char)
    (h : containsSubCh pat a = true) : containsSubCh pat (a ++ b) = true := by
  induction a with
  | nil =>
    cases pat with
    | nil => cases b <;> simp [containsSubCh, isPrefixCh]
    | cons p ps => simp [containsSubCh, isPrefixCh] at h
  | cons c cs ih =>
    simp only [containsSubCh, Bool.or_eq_true] at h
    rcases h with h | h
    · have := isPrefixCh_append pat (c :: cs) b h
      simp only [List.cons_append] at this
      simp [containsSubCh, this]
    · simp [containsSubCh, ih h]

theorem containsSubCh_self (l : List Char) : containsSubCh l l = true := by
  cases l with
  | nil => rfl
  | cons c cs => simp [containsSubCh, isPrefixCh_refl]

/-- Concatenation of strings concatenates the underlying char lists. -/
theorem str_data_append (a b : String) : (a ++ b).data = a.data ++ b.data := by
  cases a; cases b; rfl

/-- ASCII lower-casing of one char (model of Python `str.lower`; the phrases
searched for are all ASCII, so the Unicode cases of `lower` are irrelevant). -/
def lowerChar (c : Char) : Char :=
  if 'A' ≤ c ∧ c ≤ 'Z' then Char.ofNat (c.toNat + 32) else c

/-- Model of Python `s.lower()` over the char list of a string. -/
def lowerList (l : List Char) : List Char := l.map lowerChar

/-- Splitting a char list at newline characters (model of `str.splitlines`;
a trailing newline here yields one final empty piece, which is harmless for
the only use, a `startswith` search, since no marker is empty). -/
def splitLinesCh : List Char → List (List Char)
  | [] => [[]]
  | c :: cs =>
    if c == '\n' then [] :: splitLinesCh cs
    else
      match splitLinesCh cs with
      | [] => [[c]]
      | l :: ls => (c :: l) :: ls

/-- Model of Python `output.splitlines()`. -/
def splitlines (s : String) : List String :=
  (splitLinesCh s.data).map (fun l => String.mk l)

/-! ## `security.py` — the scan pipeline -/

/-- The fixed token list of `scan_offline` (security.py lines 48-53). -/
def SUSPICIOUS_COMMANDS : List String :=
  ["curl", "wget", "nc", "netcat", "base64", "python", "perl", "ruby",
   "rm -rf", "mkfs", "shutdown", "reboot", "nohup", "crontab",
   "systemctl start", "systemctl enable", "useradd", "usermod", "groupadd",
   "add-apt-repository"]

/-- The fixed path list of `scan_offline` (security.py line 56). -/
def SUSPICIOUS_PATHS : List String := ["/home", "/root", "/tmp", "/var/tmp"]

/-- The maintainer-script names inspected by `scan_offline` (line 70). -/
def SCRIPT_NAMES : List String := ["preinst", "postinst", "prerm", "postrm"]

/-- Python regex class `\s` restricted to ASCII (space, tab, newline,
carriage return, form feed, vertical tab); the scripts and tokens involved
are ASCII, so Unicode whitespace is irrelevant here. -/
def pyWhitespace (c : Char) : Bool :=
  c == ' ' || c == '\t' || c == '\n' || c == '\r' || c == '\x0b' || c == '\x0c'

/-- A char matching the opening group `(^|\s|/)` of the scan regex
(security.py line 77), for the non-`^` alternatives. -/
def openBoundary (c : Char) : Bool := pyWhitespace c || c == '/'

/-- A char matching the closing group `(\s|;|\||&|$)` of the scan regex,
for the non-`$` alternatives. -/
def closeBoundary (c : Char) : Bool :=
  pyWhitespace c || c == ';' || c == '|' || c == '&'

/-- When `cmd` is a literal prefix of `l`, returns the rest of `l`. -/
def chopLiteral : List Char → List Char → Option (List Char)
  | [], rest => some rest
  | _ :: _, [] => none
  | p :: ps, c :: cs => if p == c then chopLiteral ps cs else none

/-- Does the escaped command match at the head of `l`, including the closing
boundary group (`$` is the empty-rest case)? -/
def matchHere (cmd l : List Char) : Bool :=
  match chopLiteral cmd l with
  | none => false
  | some [] => true
  | some (c :: _) => closeBoundary c

/-- Model of `re.search(r'(^|\s|/)' + re.escape(command) + r'(\s|;|\||&|$)',
content)` from security.py line 77: the command must occur with an opening
boundary just before it (`atOpen` carries whether the previous position is a
valid opening boundary; it starts `true` for `^`) and a closing boundary just
after it. -/
def re_word_search (cmd : List Char) : List Char → Bool → Bool
  | [], atOpen => atOpen && matchHere cmd []
  | c :: cs, atOpen =>
    (atOpen && matchHere cmd (c :: cs)) || re_word_search cmd cs (openBoundary c)

/-- The finding text for a suspicious command (security.py line 78). -/
def cmdFinding (command script_name : String) : String :=
  "Suspicious command " ++ sglq ++ command ++ sglq ++ " found in " ++ sglq ++
    script_name ++ sglq ++ " script."

/-- The finding text for an unreadable maintainer script (line 80). -/
def readFailFinding (script_name : String) : String :=
  "Could not read or parse the " ++ sglq ++ script_name ++ sglq ++ " script."

/-- The findings contributed by one readable maintainer script: one entry per
suspicious command whose word-boundary regex matches the content
(security.py lines 75-78, in the order of `SUSPICIOUS_COMMANDS`). -/
def one_script_findings (script_name content : String) : List String :=
  SUSPICIOUS_COMMANDS.filterMap fun command =>
    if re_word_search command.data content.data true then
      some (cmdFinding command script_name)
    else none

/-- One filesystem entry extracted from the package payload (outside the
`DEBIAN` control directory), as observed by the `rglob` loop of
`scan_offline` (security.py lines 86-103): its install-relative path, whether
it is a regular file, whether it is a symlink, and its `st_mode` bits. -/
structure ScanEntry where
  path : String
  isFile : Bool
  isSymlink : Bool
  mode : Nat
deriving DecidableEq

/-- The extracted content of a `.deb` archive as `scan_offline` inspects it:
the maintainer scripts present under `DEBIAN` (keyed by script name; an
`Except.error` content stands for a script whose bytes could not be read,
security.py lines 79-80) and the payload entries outside `DEBIAN`. -/
structure DebArchive where
  scripts : List (String × Except Unit String)
  entries : List ScanEntry

/-- The result of `dpkg-deb -R`: either the extracted archive, or the error
output of a failed extraction (security.py lines 105-107). -/
inductive ExtractResult where
  | ok (archive : DebArchive)
  | fail (msg : String)

/-- The maintainer-script findings of `scan_offline`: for each of the four
script names in order, if the script exists, either its per-command findings
or the single read-failure finding (security.py lines 70-80). -/
def maintainer_script_findings (a : DebArchive) : List String :=
  SCRIPT_NAMES.flatMap fun script_name =>
    match a.scripts.find? (fun p => p.1 == script_name) with
    | none => []
    | some (_, Except.ok content) => one_script_findings script_name content
    | some (_, Except.error _) => [readFailFinding script_name]

/-- The finding text for a file below a suspicious install root
(security.py line 94). -/
def pathFinding (relative_path install_path : String) : String :=
  "File " ++ sglq ++ relative_path ++ sglq ++
    " is installed to a suspicious location: " ++ install_path

/-- The finding texts for SUID / SGID permission bits (lines 101, 103). -/
def suidFinding (relative_path : String) : String :=
  "Executable " ++ sglq ++ relative_path ++ sglq ++ " has SUID bit set."

def sgidFinding (relative_path : String) : String :=
  "Executable " ++ sglq ++ relative_path ++ sglq ++ " has SGID bit set."

/-- The findings of `scan_offline` for one payload entry: at most one
suspicious-location finding (first matching root wins, mirroring the `break`
at line 95), then SUID/SGID findings for executable regular files
(security.py lines 90-103). -/
def entry_findings (e : ScanEntry) : List String :=
  (match SUSPICIOUS_PATHS.find?
      (fun sp => strStartsWith (sp ++ "/") ("/" ++ e.path)) with
   | some _ => [pathFinding e.path ("/" ++ e.path)]
   | none => []) ++
  (if e.isFile && !e.isSymlink && decide (e.mode &&& 0o111 ≠ 0) then
    (if e.mode &&& 0o4000 ≠ 0 then [suidFinding e.path] else []) ++
      (if e.mode &&& 0o2000 ≠ 0 then [sgidFinding e.path] else [])
   else [])

/-- All findings of `scan_offline` on an extracted archive, in the order the
Python code appends them: maintainer-script findings first, then the payload
entries in directory-walk order. -/
def collect_findings (a : DebArchive) : List String :=
  maintainer_script_findings a ++ a.entries.flatMap entry_findings

/-- Executable lexicographic code-point comparison of char lists: the string
order Python uses when `sorted` compares `str` values. (Lean core string
comparison is not kernel-reducible, so the order is spelled out.) -/
def lexLeCh : List Char → List Char → Bool
  | [], _ => true
  | _ :: _, [] => false
  | a :: as, b :: bs =>
    if a.toNat < b.toNat then true
    else if b.toNat < a.toNat then false
    else lexLeCh as bs

theorem lexLeCh_total : ∀ x y, lexLeCh x y = true ∨ lexLeCh y x = true
  | [], _ => Or.inl rfl
  | _ :: _, [] => Or.inr rfl
  | a :: as, b :: bs => by
    rcases Nat.lt_trichotomy a.toNat b.toNat with h | h | h
    · exact Or.inl (by simp [lexLeCh, h])
    · have h1 : ¬ a.toNat < b.toNat := by omega
      have h2 : ¬ b.toNat < a.toNat := by omega
      rcases lexLeCh_total as bs with ih | ih
      · exact Or.inl (by simp [lexLeCh, h1, h2, ih])
      · exact Or.inr (by simp [lexLeCh, h1, h2, ih])
    · exact Or.inr (by simp [lexLeCh, h])

theorem lexLeCh_trans : ∀ x y z, lexLeCh x y = true → lexLeCh y z = true →
    lexLeCh x z = true
  | [], _, _, _, _ => rfl
  | _ :: _, [], _, h1, _ => by simp [lexLeCh] at h1
  | _ :: _, _ :: _, [], _, h2 => by simp [lexLeCh] at h2
  | a :: as, b :: bs, c :: cs, h1, h2 => by
    by_cases hab : a.toNat < b.toNat <;> by_cases hbc : b.toNat < c.toNat
    · simp [lexLeCh, show a.toNat < c.toNat by omega]
    · by_cases hcb : c.toNat < b.toNat
      · simp [lexLeCh, hbc, hcb] at h2
      · simp [lexLeCh, show a.toNat < c.toNat by omega]
    · by_cases hba : b.toNat < a.toNat
      · simp [lexLeCh, hab, hba] at h1
      · simp [lexLeCh, show a.toNat < c.toNat by omega]
    · by_cases hba : b.toNat < a.toNat
      · simp [lexLeCh, hab, hba] at h1
      · by_cases hcb : c.toNat < b.toNat
        · simp [lexLeCh, hbc, hcb] at h2
        · have ha : ¬ a.toNat < c.toNat := by omega
          have hc : ¬ c.toNat < a.toNat := by omega
          simp [lexLeCh, hab, hba] at h1
          simp [lexLeCh, hbc, hcb] at h2
          simp [lexLeCh, ha, hc, lexLeCh_trans as bs cs h1 h2]

/-- The string order used by the offline report (Python `sorted` on str). -/
def pyStrLe (a b : String) : Prop := lexLeCh a.data b.data = true

instance : DecidableRel pyStrLe := fun a b => instDecidableEqBool _ _

instance : IsTotal String pyStrLe := ⟨fun a b => lexLeCh_total a.data b.data⟩

instance : IsTrans String pyStrLe :=
  ⟨fun a b c => lexLeCh_trans a.data b.data c.data⟩

/-- The deduplicated, sorted finding list of the offline report:
`sorted(list(set(findings)))` at security.py line 117. -/
def unique_findings (findings : List String) : List String :=
  List.insertionSort pyStrLe findings.dedup

/-- The numbered finding lines of the offline report (lines 119-120),
starting at index `i`. -/
def number_findings : Nat → List String → String
  | _, [] => ""
  | i, f :: fs => " " ++ toString i ++ ". " ++ f ++ "\n" ++ number_findings (i + 1) fs

/-- The fixed header of the offline report (security.py line 113). -/
def offline_header (name : String) : String :=
  "Offline Scan Complete for: " ++ name ++
    "\n================================\nMethod: Basic Heuristic Analysis (Offline)\n--------------------------------\n"

/-- The body of the offline report when there are no findings (line 115). -/
def offline_clean_block : String :=
  "Result: Clean (No obvious suspicious indicators found)\n--------------------------------\nThis basic offline scan did not find any common red flags.\nFor a more thorough analysis, connect to the internet to use VirusTotal."

/-- The body of the offline report over the already-deduplicated sorted
finding list (security.py lines 118-121). -/
def offline_suspicious_block (unique : List String) : String :=
  "Result: SUSPICIOUS (" ++ toString unique.length ++
    " potential issues found)\n--------------------------------\nThe following potential issues were found. Review them carefully:\n\n" ++
    number_findings 1 unique ++
    "\nThese findings are based on heuristics and may be false positives.\nProceed with caution."

/-- The full offline report string (security.py lines 112-122). -/
def offlineReportString (name : String) (findings : List String) : String :=
  offline_header name ++
    (if findings.isEmpty then offline_clean_block
     else offline_suspicious_block (unique_findings findings))

/-- The string returned when `dpkg-deb` extraction fails (line 107). -/
def offlineFailString (name error_output : String) : String :=
  "Offline Scan Failed for: " ++ name ++
    "\nCould not extract package for analysis.\n\nDetails: " ++ error_output

/-- Model of `scan_offline` (security.py lines 39-122): extraction failure
yields the failure report, otherwise the findings are collected and
formatted. Either way a string is returned, never an exception. -/
def scan_offline (name : String) : ExtractResult → String
  | .fail msg => offlineFailString name msg
  | .ok a => offlineReportString name (collect_findings a)

/-! ## `scan_with_virustotal` (security.py lines 124-189) -/

/-- The result line of the VirusTotal report (security.py lines 173-175),
from the `last_analysis_stats` counters; `total` (line 169) is
`malicious + suspicious + harmless + undetected`, written out inline. -/
def vt_result_line (malicious suspicious harmless undetected : Nat) : String :=
  if malicious > 0 then
    "Result: DANGER! (" ++ toString malicious ++ "/" ++
      toString (malicious + suspicious + harmless + undetected) ++
      " engines detected threats)\n"
  else if suspicious > 0 then
    "Result: SUSPICIOUS (" ++ toString suspicious ++ "/" ++
      toString (malicious + suspicious + harmless + undetected) ++
      " engines flagged as suspicious)\n"
  else
    "Result: Clean (" ++ toString (harmless + undetected) ++ "/" ++
      toString (malicious + suspicious + harmless + undetected) ++
      " engines found no threats)\n"

/-- The VirusTotal report string for a digest found in the database
(security.py lines 171-177; the optional `last_analysis_date` suffix of
lines 179-182 carries no classification keyword and is omitted). -/
def vtReportString (name : String) (malicious suspicious harmless undetected : Nat) :
    String :=
  "Scan Complete for: " ++ name ++ "\n" ++
    "================================\n" ++
    vt_result_line malicious suspicious harmless undetected ++
    "--------------------------------\n" ++
    "Malicious: " ++ toString malicious ++ "\nSuspicious: " ++
    toString suspicious ++ "\nHarmless: " ++ toString harmless ++
    "\nUndetected: " ++ toString undetected ++ "\n"

/-- The report string for a digest unknown to VirusTotal, HTTP 404
(security.py lines 151-158). -/
def vtNotFoundString (name : String) : String :=
  "Scan Complete for: " ++ name ++ "\n" ++
    "================================\n" ++
    "Result: SUSPICIOUS (File not found in VirusTotal database)\n" ++
    "--------------------------------\n" ++
    "This file has not been scanned by VirusTotal before. This can be normal for new or rare software, but exercise caution.\n"

/-- Outcome of the reputation lookup, as `scan_with_virustotal` branches on
it: HTTP 404, a 2xx report with analysis counters, or a
`requests.exceptions.RequestException` (connection error, timeout, or the
`raise_for_status` of any other non-2xx status). -/
inductive VTResponse where
  | notFound
  | found (malicious suspicious harmless undetected : Nat)
  | transportError

/-- What the scan worker function produces: a returned report string, a
re-raised `ValueError` (missing API key, line 128 and 188-189), or the
`InterruptedError` raised when the owning worker was stopped mid-hash
(lines 139-141; it is caught by neither handler and so propagates). -/
inductive ScanOutcome where
  | ret (s : String)
  | raiseValueError (msg : String)
  | raiseInterrupted
deriving DecidableEq

/-- Model of `scan_with_virustotal` (security.py lines 124-189). The second
component records whether `scan_offline` was invoked: it is invoked in the
`RequestException` handler (lines 185-187) and nowhere else. -/
def scan_with_virustotal (hasApiKey cancelled : Bool) (name : String)
    (resp : VTResponse) (archive : ExtractResult) : ScanOutcome × Bool :=
  if !hasApiKey then
    (.raiseValueError "VirusTotal API key is not configured. Please set the NANO_VT_API_KEY environment variable.", false)
  else if cancelled then (.raiseInterrupted, false)
  else
    match resp with
    | .notFound => (.ret (vtNotFoundString name), false)
    | .found m s h u => (.ret (vtReportString name m s h u), false)
    | .transportError => (.ret (scan_offline name archive), true)

/-! ## `wizards.py` — scan-result classification (lines 505-526) -/

/-- What the scan worker delivers to `on_done`: either an exception captured
by `WorkerThread.run` (utils.py lines 37-38) or the report string. -/
inductive ScanWorkerResult where
  | exc (msg : String)
  | str (s : String)

/-- The `_scan_status` values assigned by `on_done`. -/
inductive ScanStatus where
  | danger
  | suspicious
  | clean
  | error
deriving DecidableEq

/-- Model of the `on_done` classifier in `do_scan` (wizards.py lines
505-526): an exception is an error; otherwise the report string is probed
for the keywords in order, and an unrecognized format is an error. -/
def classify_scan_result : ScanWorkerResult → ScanStatus
  | .exc _ => .error
  | .str s =>
    if containsSubstr "DANGER!" s then .danger
    else if containsSubstr "SUSPICIOUS" s then .suspicious
    else if containsSubstr "Clean" s then .clean
    else if containsSubstr "UNKNOWN" s then .error
    else .error

/-! ## `utils.py` — `WorkerThread.stop` (lines 47-67) -/

/-- The Python exception classes relevant to the `stop` handlers. Key fact
of the standard library encoded here: `Popen.wait(timeout=...)` raises
`subprocess.TimeoutExpired`, a subclass of `SubprocessError` and `Exception`
but NOT of the built-in `TimeoutError`. -/
inductive PyExc where
  | processLookupError
  | timeoutExpired
  | timeoutError
deriving DecidableEq

/-- What `self._process.wait(timeout=5)` does, given whether the terminated
process group exits within the 5-second grace period: returns normally, or
raises `subprocess.TimeoutExpired` (Python stdlib semantics). -/
def popen_wait_grace (exitsWithinGrace : Bool) : Option PyExc :=
  if exitsWithinGrace then none else some .timeoutExpired

/-- Whether the first handler `except (ProcessLookupError, TimeoutError)`
(utils.py line 58) catches a raised exception; anything it misses falls to
`except Exception: pass` (lines 64-65). -/
def term_handler_catches : PyExc → Bool
  | .processLookupError => true
  | .timeoutError => true
  | .timeoutExpired => false

/-- The externally visible steps of `WorkerThread.stop`. -/
inductive StopAction where
  | emit_stop_requested
  | sigterm_group
  | sigkill_group
  | join_thread
deriving DecidableEq

/-- Model of `WorkerThread.stop` (utils.py lines 47-67) as the sequence of
actions it performs. `registered` is whether `set_process` stored a
subprocess, `procFinished` is whether `poll()` reports it already exited,
and `exitsWithinGrace` is whether the signalled group exits within the
5-second `wait`. The flag `_is_running` is cleared first (not an external
action), then `stop_requested` is emitted; SIGKILL is reached only when the
first handler catches what `wait` raised; finally `self.wait()` joins the
thread. -/
def worker_stop (registered procFinished exitsWithinGrace : Bool) :
    List StopAction :=
  [StopAction.emit_stop_requested] ++
    (if registered && !procFinished then
      [StopAction.sigterm_group] ++
        (match popen_wait_grace exitsWithinGrace with
         | none => []
         | some e =>
           if term_handler_catches e then [StopAction.sigkill_group] else [])
     else []) ++
    [StopAction.join_thread]

/-! ## `wizards.py` — the install worker and `done` classifier -/

/-- The backend-error marker scanned for at wizards.py line 647 (named
`backend_error_prefix` in the source). -/
def backend_error_marker : String := "[NANO_BACKEND_ERROR]"

/-- The fixed authentication-failure phrases (wizards.py lines 660-665). -/
def password_error_phrases : List String :=
  ["sorry, try again", "authentication failed", "incorrect password",
   "incorrect authentication"]

/-- Model of `is_password_error` (wizards.py line 666): non-zero exit code
and some phrase occurring in the lower-cased output. -/
def is_password_error (rc : Int) (output : String) : Bool :=
  decide (rc ≠ 0) &&
    password_error_phrases.any
      (fun p => containsSubCh p.data (lowerList output.data))

/-- Model of the backend-error line search (wizards.py line 648): the first
output line starting with the marker. -/
def find_backend_error_line (output : String) : Option String :=
  (splitlines output).find? (fun l => strStartsWith backend_error_marker l)

/-- What the `done` callback receives from the worker (wizards.py lines
638-644): an exception, or the `(returncode, output)` pair. -/
inductive WorkerDoneInput where
  | exc (msg : String)
  | res (rc : Int) (output : String)

/-- The terminal classification performed by `done` (wizards.py lines
638-714). There is no cancelled branch: every non-zero exit that is neither
a backend-marker error nor a password error lands in the generic-failure
branch. `backendError` carries the marker line (the UI strips the marker for
display, line 652); `passwordRetry` records whether the saved password was in
use (and must therefore be purged). -/
inductive DoneOutcome where
  | unexpectedError (msg : String)
  | backendError (line : String)
  | succeeded
  | passwordRetry (usedSavedPassword : Bool)
  | genericFailure (rc : Int)
deriving DecidableEq

/-- Model of the `done` classifier (wizards.py lines 638-714): backend
marker first (authoritative, before the exit code is consulted), then exit
code 0 means success, then the password-error test, else generic failure. -/
def done_outcome (usedSavedPassword : Bool) : WorkerDoneInput → DoneOutcome
  | .exc m => .unexpectedError m
  | .res rc output =>
    match find_backend_error_line output with
    | some line => .backendError line
    | none =>
      if rc = 0 then .succeeded
      else if is_password_error rc output then .passwordRetry usedSavedPassword
      else .genericFailure rc

/-- Whether a `done` classification is surfaced to the user as a failure
(critical/warning dialog and red progress bar) rather than success. -/
def is_failure_outcome : DoneOutcome → Bool
  | .unexpectedError _ => true
  | .backendError _ => true
  | .succeeded => false
  | .passwordRetry _ => false
  | .genericFailure _ => true

/-- Model of the `install` worker read loop (wizards.py lines 606-611):
before each `readline` the cancellation flag is checked (`running step` is
the value of `worker.is_running()` at iteration `step`); on cancellation the
loop terminates the process and breaks, otherwise it consumes the next
output line until EOF. Returns the collected lines and whether the loop was
cancelled. -/
def read_loop (running : Nat → Bool) : List String → Nat → List String × Bool
  | [], step => if running step then ([], false) else ([], true)
  | l :: ls, step =>
    if running step then
      let r := read_loop running ls (step + 1)
      (l :: r.1, r.2)
    else ([], true)

/-- Model of the `install` worker (wizards.py lines 589-618) after the
subprocess is launched: `lines` is the output the subprocess would produce,
`natExit` its natural exit code. On the cancelled path `proc.terminate()`
sends SIGTERM and `proc.wait()` then reports the signal as the negative
returncode `-15` (Popen semantics for a child killed by SIGTERM); otherwise
`proc.wait()` yields the natural exit code. Returns `(returncode, output
lines)`. -/
def run_install (running : Nat → Bool) (lines : List String) (natExit : Int) :
    Int × List String :=
  let r := read_loop running lines 0
  (if r.2 then -15 else natExit, r.1)

/-- Model of `"".join(output_lines)` (wizards.py line 614). -/
def join_output (lines : List String) : String := String.join lines

/-! ## `settings.py` and the password-retry flow -/

/-- The persistent settings touched by the retry flow: the stored (encrypted)
sudo password — `none` when the `sudo_password` key is absent — and the
string-valued `auto_password_enabled` setting. Fernet encryption is a
bijection on stored secrets and is elided: the stored value stands for the
secret it decrypts to. -/
structure Settings where
  sudo_password : Option String
  auto_password_enabled : String
deriving DecidableEq

/-- Model of `SettingsManager.save_password` (settings.py lines 44-49): an
empty password removes the stored key, otherwise the password is stored. -/
def save_password (password : String) (st : Settings) : Settings :=
  if password = "" then { st with sudo_password := none }
  else { st with sudo_password := some password }

/-- Model of `SettingsManager.get_password` (settings.py lines 51-61). -/
def get_password (st : Settings) : Option String := st.sudo_password

/-- Model of `set_setting("auto_password_enabled", v)`. -/
def set_auto_password (v : String) (st : Settings) : Settings :=
  { st with auto_password_enabled := v }

/-- Credential acquisition of `_execute_operation` (wizards.py lines
94-108): the saved password is used (flagging `used_saved_password=True`)
only when `auto_password_enabled` is `"true"` and a password is stored;
otherwise the dialog result `promptResult` is used (`none` = user cancelled,
the wizard backs out). -/
def select_credential (st : Settings) (promptResult : Option String) :
    Option (String × Bool) :=
  let auto_enabled := st.auto_password_enabled = "true"
  match (if auto_enabled then get_password st else none) with
  | some saved => some (saved, true)
  | none => promptResult.map (fun p => (p, false))

/-- The observable steps of the password-error branch of `done` and the
`_ask_password_and_execute(is_retry=True)` call it makes (wizards.py lines
697-708 and 110-121). -/
inductive PwAction where
  | clear_saved_password
  | disable_auto_password
  | prompt_user (isRetry : Bool)
  | go_back
  | start_attempt (password : String) (usedSavedPassword : Bool)
deriving DecidableEq

/-- Model of the `is_password_error` branch of `done` (wizards.py lines
697-708): when the rejected credential was the saved one, the stored
password is purged (`save_password("")`) and auto-password disabled, in that
order, before the retry; then `_ask_password_and_execute(is_retry=True)`
always re-prompts, and the new attempt — if the user enters `fresh` — runs
with the prompted password and `used_saved_password=False`
(`_start_worker_thread`, line 121-125). Returns the updated settings and the
action sequence. -/
def password_error_retry (usedSavedPassword : Bool) (st : Settings)
    (fresh : Option String) : Settings × List PwAction :=
  let pre :=
    if usedSavedPassword then
      (set_auto_password "false" (save_password "" st),
       [PwAction.clear_saved_password, PwAction.disable_auto_password])
    else (st, ([] : List PwAction))
  match fresh with
  | none => (pre.1, pre.2 ++ [PwAction.prompt_user true, PwAction.go_back])
  | some p =>
    (pre.1, pre.2 ++ [PwAction.prompt_user true, PwAction.start_attempt p false])

/-! ## Shared helper lemmas for the claim theorems -/

theorem danger_in_result_line (m s h u : Nat) (hm : 0 < m) :
    containsSubCh "DANGER!".data (vt_result_line m s h u).data = true := by
  simp only [vt_result_line]
  rw [if_pos hm]
  simp only [str_data_append]
  iterate 4 apply containsSubCh_append_left
  decide

theorem danger_in_vtReport (name : String) (m s h u : Nat) (hm : 0 < m) :
    containsSubstr "DANGER!" (vtReportString name m s h u) = true := by
  unfold containsSubstr vtReportString
  simp only [str_data_append]
  iterate 10 apply containsSubCh_append_left
  apply containsSubCh_append_right
  exact danger_in_result_line m s h u hm

theorem suspicious_in_vtNotFound (name : String) :
    containsSubstr "SUSPICIOUS" (vtNotFoundString name) = true := by
  unfold containsSubstr vtNotFoundString
  simp only [str_data_append]
  iterate 2 apply containsSubCh_append_left
  apply containsSubCh_append_right
  decide

/-! ## Claim theorems -/

/-- C1: for every reputation-service response with analysis statistics, the
scan result line is DANGER exactly when the malicious count is positive
(and the wizard classifies the report as danger), SUSPICIOUS when malicious
is zero and suspicious positive, Clean when both are zero; the reported
total is `malicious + suspicious + harmless + undetected` and the DANGER
line reports the malicious count out of that total. -/
theorem C1_vt_stats_classification (name : String) (m s h u : Nat) :
    (0 < m →
      vt_result_line m s h u =
        "Result: DANGER! (" ++ toString m ++ "/" ++ toString (m + s + h + u) ++
          " engines detected threats)\n" ∧
      classify_scan_result (.str (vtReportString name m s h u)) = .danger) ∧
    (m = 0 → 0 < s →
      vt_result_line m s h u =
        "Result: SUSPICIOUS (" ++ toString s ++ "/" ++
          toString (m + s + h + u) ++ " engines flagged as suspicious)\n") ∧
    (m = 0 → s = 0 →
      vt_result_line m s h u =
        "Result: Clean (" ++ toString (h + u) ++ "/" ++
          toString (m + s + h + u) ++ " engines found no threats)\n") := by
  refine ⟨fun hm => ⟨?_, ?_⟩, fun hm hs => ?_, fun hm hs => ?_⟩
  · simp only [vt_result_line, if_pos hm]
  · have := danger_in_vtReport name m s h u hm
    simp [classify_scan_result, this]
  · subst hm; simp only [vt_result_line]
    rw [if_neg (by omega), if_pos hs]
  · subst hm; subst hs; simp only [vt_result_line]
    rw [if_neg (by omega), if_neg (by omega)]

/-- Witness for C1 at the spec scenario `{malicious: 2, suspicious: 1,
harmless: 3}` with 0 undetected: verdict DANGER, reported 2 of total 6. -/
theorem C1_witness_scenario :
    vt_result_line 2 1 3 0 = "Result: DANGER! (2/6 engines detected threats)\n" ∧
    classify_scan_result (.str (vtReportString "test.deb" 2 1 3 0)) =
      .danger := by
  have h := (C1_vt_stats_classification "test.deb" 2 1 3 0).1 (by decide)
  exact ⟨by rw [h.1]; rfl, h.2⟩

/-- C2: a 404 from the reputation lookup yields the not-found SUSPICIOUS
report and does not invoke `scan_offline` (second component `false`); the
wizard classifies that report as suspicious (given the file name does not
itself spoof the DANGER keyword). -/
theorem C2_not_found_suspicious_no_fallback (name : String)
    (archive : ExtractResult) :
    scan_with_virustotal true false name .notFound archive =
      (.ret (vtNotFoundString name), false) ∧
    containsSubstr "SUSPICIOUS" (vtNotFoundString name) = true ∧
    (containsSubstr "DANGER!" (vtNotFoundString name) = false →
      classify_scan_result (.str (vtNotFoundString name)) = .suspicious) := by
  refine ⟨rfl, suspicious_in_vtNotFound name, fun hd => ?_⟩
  simp [classify_scan_result, hd, suspicious_in_vtNotFound name]

set_option maxRecDepth 8192 in
/-- Witness for C2 at a concrete file name. -/
theorem C2_witness :
    scan_with_virustotal true false "pkg.deb" .notFound (.ok ⟨[], []⟩) =
      (.ret (vtNotFoundString "pkg.deb"), false) ∧
    classify_scan_result (.str (vtNotFoundString "pkg.deb")) = .suspicious := by
  have h := C2_not_found_suspicious_no_fallback "pkg.deb" (.ok ⟨[], []⟩)
  exact ⟨h.1, h.2.2 (by decide)⟩

/-- C3: a transport failure of the reputation lookup (connection error,
timeout, or non-2xx other than 404, all raising `RequestException`) invokes
the heuristic scanner (second component `true`), and the returned result is
exactly the heuristic result — a returned string, never a raised error. -/
theorem C3_transport_fallback (name : String) (archive : ExtractResult) :
    scan_with_virustotal true false name .transportError archive =
      (.ret (scan_offline name archive), true) := rfl

set_option maxRecDepth 8192 in
/-- C4: the heuristic scanner flags a command token only on whole-word
matches: the standalone token `curl` produces the curl finding, `curlicue`
produces no finding at all, and in general every finding comes from some
command whose word-boundary regex matched the content. -/
theorem C4_word_boundary :
    cmdFinding "curl" "postinst" ∈
      one_script_findings "postinst" "curl http://example.com\n" ∧
    one_script_findings "postinst" "curlicue=1\n" = [] ∧
    (∀ script_name content f, f ∈ one_script_findings script_name content →
      ∃ command, command ∈ SUSPICIOUS_COMMANDS ∧
        re_word_search command.data content.data true = true) := by
  refine ⟨by decide, by decide, fun script_name content f hf => ?_⟩
  unfold one_script_findings at hf
  rw [List.mem_filterMap] at hf
  obtain ⟨command, hmem, hsome⟩ := hf
  by_cases hc : re_word_search command.data content.data true = true
  · exact ⟨command, hmem, hc⟩
  · rw [if_neg hc] at hsome; cases hsome

/-- Witness for C4: the general word-match direction applied to the curl
finding of the concrete script. -/
theorem C4_witness :
    ∃ command, command ∈ SUSPICIOUS_COMMANDS ∧
      re_word_search command.data "curl http://example.com\n".data true =
        true :=
  C4_word_boundary.2.2 "postinst" "curl http://example.com\n"
    (cmdFinding "curl" "postinst") C4_word_boundary.1

/-- C5: evaluation of `WorkerThread.stop` at the failing input — a
registered, still-running subprocess whose group does not exit within the
5-second grace period. `Popen.wait` raises `subprocess.TimeoutExpired`,
which the handler `except (ProcessLookupError, TimeoutError)` does not
catch (it is not a `TimeoutError`), so the `except Exception: pass` clause
swallows it and SIGKILL is never sent — contradicting the claim (and the
code's own comment at utils.py line 59). The remaining parts of the claim
hold: `stop` joins the thread last, and on an already-finished subprocess no
signal at all is sent. -/
theorem C5_stop_trace_on_timeout :
    worker_stop true false false =
      [.emit_stop_requested, .sigterm_group, .join_thread] ∧
    StopAction.sigkill_group ∉ worker_stop true false false ∧
    popen_wait_grace false = some .timeoutExpired ∧
    term_handler_catches .timeoutExpired = false ∧
    worker_stop true true false = [.emit_stop_requested, .join_thread] := by
  decide

/-- C6 counterexample: a run cancelled immediately does return the
terminated-by-signal code `-15`, but the `done` callback classifies it as
the generic failure (warning dialog "Installation failed with an error"),
not as a distinct cancelled outcome. -/
theorem C6_counterexample :
    run_install (fun _ => false) ["line\n"] 0 = (-15, []) ∧
    done_outcome false (.res (-15) (join_output [])) =
      DoneOutcome.genericFailure (-15) := by
  constructor
  · rfl
  · decide

/-- C6 amended: a privileged execution whose cancellation flag trips while
output is being read stops reading and yields the terminated-by-signal exit
code `-15`; the controller, however, has no Cancelled classification — when
the captured output contains no backend-error marker and no
authentication-failure phrase, the attempt lands in the generic-failure
branch of `done`. -/
theorem C6_amended_cancel_generic_failure (running : Nat → Bool)
    (lines : List String) (natExit : Int) (usedSavedPassword : Bool)
    (hc : (read_loop running lines 0).2 = true)
    (hb : find_backend_error_line
      (join_output (run_install running lines natExit).2) = none)
    (hp : password_error_phrases.any
      (fun p => containsSubCh p.data
        (lowerList (join_output (run_install running lines natExit).2).data)) =
      false) :
    (run_install running lines natExit).1 = -15 ∧
    done_outcome usedSavedPassword
      (.res (run_install running lines natExit).1
        (join_output (run_install running lines natExit).2)) =
      .genericFailure (-15) := by
  have h1 : (run_install running lines natExit).1 = -15 := by
    simp [run_install, hc]
  refine ⟨h1, ?_⟩
  rw [h1]
  simp only [done_outcome, hb]
  rw [if_neg (by norm_num)]
  simp [is_password_error, hp]

/-- Witness for the amended C6 at a concrete cancelled run. -/
theorem C6_amended_witness :
    (read_loop (fun _ => false) ["a\n"] 0).2 = true ∧
    (run_install (fun _ => false) ["a\n"] 0).1 = -15 ∧
    done_outcome false
      (.res (run_install (fun _ => false) ["a\n"] 0).1
        (join_output (run_install (fun _ => false) ["a\n"] 0).2)) =
      .genericFailure (-15) := by
  have h := C6_amended_cancel_generic_failure (fun _ => false) ["a\n"] 0 false
    (by decide) (by decide) (by decide)
  exact ⟨by decide, h.1, h.2⟩

/-- C7: after a password-error outcome with the saved credential in use, the
stored password is purged and auto-password disabled before any retry (the
action list places them before the prompt and the new attempt); the retry
always re-prompts; any new attempt runs with the freshly prompted password
and `used_saved_password = False`, never with the rejected stored one; and a
subsequent credential selection from the purged settings can only come from
a prompt. -/
theorem C7_password_retry_purge (st : Settings) (fresh : Option String) :
    (password_error_retry true st fresh).1.sudo_password = none ∧
    (password_error_retry true st fresh).1.auto_password_enabled = "false" ∧
    (fresh = none →
      (password_error_retry true st fresh).2 =
        [.clear_saved_password, .disable_auto_password, .prompt_user true,
         .go_back]) ∧
    (∀ p, fresh = some p →
      (password_error_retry true st fresh).2 =
        [.clear_saved_password, .disable_auto_password, .prompt_user true,
         .start_attempt p false]) ∧
    (∀ p usedSavedPassword,
      PwAction.start_attempt p usedSavedPassword ∈
        (password_error_retry true st fresh).2 →
      fresh = some p ∧ usedSavedPassword = false) ∧
    (∀ promptResult,
      select_credential (password_error_retry true st fresh).1 promptResult =
        promptResult.map (fun p => (p, false))) := by
  cases fresh with
  | none =>
    refine ⟨rfl, rfl, fun _ => rfl, ?_, ?_, fun promptResult => rfl⟩
    · intro p hp
      exact absurd hp (by simp)
    · intro p us hmem
      exfalso
      simp [password_error_retry, save_password, set_auto_password] at hmem
  | some q =>
    refine ⟨rfl, rfl, ?_, ?_, ?_, fun promptResult => rfl⟩
    · intro h
      exact absurd h (by simp)
    · intro p hp
      obtain rfl : q = p := Option.some.inj hp
      rfl
    · intro p us hmem
      simp [password_error_retry, save_password, set_auto_password] at hmem
      obtain ⟨h1, h2⟩ := hmem
      subst h1
      subst h2
      exact ⟨rfl, rfl⟩

/-- Witness for C7 with a stored credential, auto-password enabled, and a
fresh password entered at the re-prompt. -/
theorem C7_witness :
    (password_error_retry true ⟨some "hunter2", "true"⟩
      (some "newpw")).1.sudo_password = none ∧
    (password_error_retry true ⟨some "hunter2", "true"⟩
      (some "newpw")).1.auto_password_enabled = "false" ∧
    (password_error_retry true ⟨some "hunter2", "true"⟩ (some "newpw")).2 =
      [.clear_saved_password, .disable_auto_password, .prompt_user true,
       .start_attempt "newpw" false] := by
  have h := C7_password_retry_purge ⟨some "hunter2", "true"⟩ (some "newpw")
  exact ⟨h.1, h.2.1, h.2.2.2.1 "newpw" rfl⟩

/-- C8: whenever the captured output contains a line beginning with the
backend-error marker, `done` classifies the attempt as a backend failure —
surfaced as a failure, never as success — regardless of the exit code
(including exit code 0). -/
theorem C8_backend_marker_authoritative (usedSavedPassword : Bool) (rc : Int)
    (output : String)
    (h : (splitlines output).any
      (fun l => strStartsWith backend_error_marker l) = true) :
    (∃ line, done_outcome usedSavedPassword (.res rc output) =
      .backendError line) ∧
    done_outcome usedSavedPassword (.res rc output) ≠ .succeeded ∧
    is_failure_outcome (done_outcome usedSavedPassword (.res rc output)) =
      true := by
  have hex : ∃ line, find_backend_error_line output = some line := by
    rw [List.any_eq_true] at h
    obtain ⟨l, hl, hp⟩ := h
    have hs : (find_backend_error_line output).isSome = true := by
      unfold find_backend_error_line
      rw [List.find?_isSome]
      exact ⟨l, hl, hp⟩
    exact Option.isSome_iff_exists.mp hs
  obtain ⟨line, hline⟩ := hex
  refine ⟨⟨line, ?_⟩, ?_, ?_⟩ <;>
    simp [done_outcome, hline, is_failure_outcome]

set_option maxRecDepth 8192 in
/-- Witness for C8: exit code 0 with a backend-error marker line is not a
success. -/
theorem C8_witness :
    (splitlines "[NANO_BACKEND_ERROR] apt failed\n").any
      (fun l => strStartsWith backend_error_marker l) = true ∧
    done_outcome false (.res 0 "[NANO_BACKEND_ERROR] apt failed\n") ≠
      .succeeded := by
  refine ⟨by decide, ?_⟩
  exact (C8_backend_marker_authoritative false 0
    "[NANO_BACKEND_ERROR] apt failed\n" (by decide)).2.1

/-- C9: with the API key configured and no cancellation, the scan always
returns a report string — one verdict, never a raised exception — for every
response and archive state; a corrupted or unextractable archive yields the
failure report that carries the extraction error message, which the wizard
classifies as the error status (given the file name and error text do not
spoof a classification keyword); and even a worker exception is mapped to
the error status rather than crashing the wizard. -/
theorem C9_classify_total_no_crash :
    (∀ name resp archive, ∃ s,
      (scan_with_virustotal true false name resp archive).1 = .ret s) ∧
    (∀ name msg, scan_offline name (.fail msg) = offlineFailString name msg ∧
      containsSubstr msg (offlineFailString name msg) = true) ∧
    (∀ name msg,
      containsSubstr "DANGER!" (offlineFailString name msg) = false →
      containsSubstr "SUSPICIOUS" (offlineFailString name msg) = false →
      containsSubstr "Clean" (offlineFailString name msg) = false →
      containsSubstr "UNKNOWN" (offlineFailString name msg) = false →
      classify_scan_result (.str (offlineFailString name msg)) = .error) ∧
    (∀ msg, classify_scan_result (.exc msg) = .error) := by
  refine ⟨fun name resp archive => ?_, fun name msg => ⟨rfl, ?_⟩,
    fun name msg h1 h2 h3 h4 => ?_, fun msg => rfl⟩
  · cases resp <;> exact ⟨_, rfl⟩
  · unfold containsSubstr offlineFailString
    simp only [str_data_append]
    apply containsSubCh_append_right
    exact containsSubCh_self _
  · simp [classify_scan_result, h1, h2, h3, h4]

set_option maxRecDepth 8192 in
/-- Witness for C9 at a concrete corrupted archive. -/
theorem C9_witness :
    scan_offline "pkg.deb" (.fail "bad archive") =
      offlineFailString "pkg.deb" "bad archive" ∧
    containsSubstr "bad archive"
      (offlineFailString "pkg.deb" "bad archive") = true ∧
    classify_scan_result (.str (offlineFailString "pkg.deb" "bad archive")) =
      .error := by
  have h := C9_classify_total_no_crash
  exact ⟨(h.2.1 "pkg.deb" "bad archive").1, (h.2.1 "pkg.deb" "bad archive").2,
    h.2.2.1 "pkg.deb" "bad archive" (by decide) (by decide) (by decide)
      (by decide)⟩

/-- C10: the finding list included in the offline report is exactly
`unique_findings findings` — duplicate-free, sorted, containing precisely
the distinct detected findings — and the reported issue count is its length,
which equals the number of distinct findings, even when a finding was
detected several times. -/
theorem C10_report_dedup_sorted (name : String) (findings : List String) :
    (unique_findings findings).Nodup ∧
    List.Sorted pyStrLe (unique_findings findings) ∧
    (∀ x, x ∈ unique_findings findings ↔ x ∈ findings) ∧
    (unique_findings findings).length = findings.dedup.length ∧
    (findings.isEmpty = false →
      offlineReportString name findings =
        offline_header name ++
          offline_suspicious_block (unique_findings findings)) := by
  have hperm : List.Perm (List.insertionSort pyStrLe findings.dedup)
      findings.dedup := List.perm_insertionSort _ _
  unfold unique_findings
  refine ⟨?_, ?_, ?_, ?_, ?_⟩
  · exact hperm.nodup_iff.mpr (List.nodup_dedup findings)
  · exact List.sorted_insertionSort _ _
  · intro x
    exact hperm.mem_iff.trans (List.mem_dedup)
  · exact hperm.length_eq
  · intro hne
    simp [offlineReportString, unique_findings, hne]

/-- Witness for C10 at a finding list with a duplicate. -/
theorem C10_witness :
    unique_findings ["b", "a", "b"] = ["a", "b"] ∧
    offlineReportString "pkg.deb" ["b", "a", "b"] =
      offline_header "pkg.deb" ++
        offline_suspicious_block (unique_findings ["b", "a", "b"]) := by
  refine ⟨by decide, ?_⟩
  exact (C10_report_dedup_sorted "pkg.deb" ["b", "a", "b"]).2.2.2.2 (by decide)
